import Mathlib

/-!
Shallow embedding of the `prefect-planetary-computer` repository
(`prefect_planetary_computer/credentials.py`, `gateway.py`, `task_runners.py`,
`constants.py`) and proofs about the claims on its behaviour.

Conventions of the embedding:
* Python `Optional[X]` values are `Option X`; Python `None` is `none`.
* pydantic-v1 `SecretStr` is a wrapper around a `String`; its `__eq__`
  (inherited from `SecretField`) compares by plaintext after an `isinstance`
  check, and its truthiness goes through `__len__` (so the empty secret is
  falsy).
* Python exceptions are modelled by `Except PyError`; `ValueError`,
  `AttributeError` (for `None.get_secret_value()`) and `TypeError` (for a
  duplicate keyword argument in a call using `**kwargs`) are distinguished.
* Python keyword-argument dictionaries are association lists
  (`List (String × PyVal)`); `dictSet` is `d[k] = v` (replace in place, else
  append, matching insertion-ordered Python dicts) and `dictUpdate` is
  `d.update(u)`.
* Methods are embedded as functions that also return the credentials record
  after the call (first component), so that absence of mutation of the record
  is a provable property of the translation rather than an assumption.
* The process-wide signing-key global of the `planetary_computer` library is
  threaded explicitly through `get_stac_catalog`, together with an event
  trace recording the order of the global mutation and the client opening.
-/

/-- Universe of Python values that flow through the kwargs dictionaries of
this code base.  The code never computes with these values, it only stores,
copies and compares them, so numbers are represented exactly. -/
inductive PyVal where
  | pyNone : PyVal
  | pyBool (b : Bool) : PyVal
  | pyNum (n : Int) : PyVal
  | pyStr (s : String) : PyVal
  | pyStrMap (entries : List (String × String)) : PyVal
  | pyAuth (api_token : String) : PyVal
deriving DecidableEq, Repr

/-- Python truthiness (`bool(v)`) for the embedded values. -/
def pyTruthy : PyVal → Bool
  | PyVal.pyNone => false
  | PyVal.pyBool b => b
  | PyVal.pyNum n => n != 0
  | PyVal.pyStr s => s != ""
  | PyVal.pyStrMap l => l.length != 0
  | PyVal.pyAuth _ => true

/-- A Python keyword-argument dictionary. -/
abbrev PyDict := List (String × PyVal)

/-- `d.get(key)`: value of the first binding of `key`, if any. -/
def dictGet : PyDict → String → Option PyVal
  | [], _ => none
  | (k, v) :: rest, key => if k = key then some v else dictGet rest key

/-- `d[key] = v`: replace the binding of `key` in place, else append it,
matching CPython insertion-ordered dictionaries. -/
def dictSet : PyDict → String → PyVal → PyDict
  | [], key, v => [(key, v)]
  | (k, w) :: rest, key, v =>
      if k = key then (k, v) :: rest else (k, w) :: dictSet rest key v

/-- `d.update(u)`: set every binding of `u` in `d`, in order. -/
def dictUpdate (d u : PyDict) : PyDict :=
  u.foldl (fun acc kv => dictSet acc kv.1 kv.2) d

/-- `kwargs.get(key, None)` followed by a truthiness test, as in
`PlanetaryComputerGateway.__init__`. -/
def kwargTruthy (d : PyDict) (key : String) : Bool :=
  pyTruthy ((dictGet d key).getD PyVal.pyNone)

/-- pydantic-v1 `SecretStr`: a wrapper around a plaintext string. -/
structure SecretStr where
  val : String
deriving DecidableEq, Repr

/-- `SecretStr.get_secret_value`. -/
def SecretStr.get_secret_value (s : SecretStr) : String := s.val

/-- Python `==` on two `Optional[SecretStr]` attribute values.
`SecretField.__eq__` is an `isinstance` check plus plaintext comparison;
`None == None` is true and `None` compared against a `SecretStr` is false in
either direction. -/
def optSecretEq : Option SecretStr → Option SecretStr → Bool
  | none, none => true
  | none, some _ => false
  | some _, none => false
  | some a, some b => a.val == b.val

/-- Truthiness of an `Optional[SecretStr]` attribute: `None` is falsy and a
`SecretStr` goes through `SecretStr.__len__`, so the empty secret is falsy. -/
def optSecretTruthy : Option SecretStr → Bool
  | none => false
  | some s => s.val != ""

/-- The Python exceptions this code can raise locally. -/
inductive PyError where
  | valueError (msg : String) : PyError
  | attributeError (msg : String) : PyError
  | typeError (msg : String) : PyError
deriving DecidableEq, Repr

/-- Message of the `AttributeError` raised by `None.get_secret_value()`. -/
def noneGetSecretValueMsg : String :=
  "\x27NoneType\x27 object has no attribute \x27get_secret_value\x27"

/-- Message of the missing-token `ValueError` in `credentials.py` and
`task_runners.py`. -/
def missingTokenMsg : String := "JupyterHub API Token hasn\x27t been provided."

/-- Message of the missing-token `ValueError` in `gateway.py`. -/
def gatewayMissingTokenMsg : String :=
  "No Planetary Computer Hub API token provided."

/-- Message of the address-override `ValueError` in `gateway.py`. -/
def addressOverrideMsg : String :=
  "The \x27address\x27 kwarg is already set up by default."

/-- Message of the proxy-address-override `ValueError` in `gateway.py`. -/
def proxyOverrideMsg : String :=
  "The \x27proxy_address\x27 kwarg is already set up by default."

/-- Message of the `TypeError` raised by a call `f(k=..., **kwargs)` when
`kwargs` also binds `k`. -/
def dupKwargMsg (k : String) : String :=
  "got multiple values for keyword argument \x27" ++ k ++ "\x27"

/-- `x.get_secret_value()` on an `Optional[SecretStr]` attribute: an
`AttributeError` when the attribute is `None`. -/
def getSecretValueAttr : Option SecretStr → Except PyError String
  | none => Except.error (PyError.attributeError noneGetSecretValueMsg)
  | some s => Except.ok s.val

/-- `constants.CATALOG_URL`. -/
def CATALOG_URL : String := "https://planetarycomputer.microsoft.com/api/stac/v1/"

/-- `constants.GATEWAY_ADDRESS`. -/
def GATEWAY_ADDRESS : String :=
  "https://pccompute.westeurope.cloudapp.azure.com/compute/services/dask-gateway"

/-- `constants.GATEWAY_PROXY_ADDRESS`. -/
def GATEWAY_PROXY_ADDRESS : String :=
  "gateway://pccompute-dask.westeurope.cloudapp.azure.com:80"

/-- The credentials record (`PlanetaryComputerCredentials` block): two
optional secret fields. -/
structure PlanetaryComputerCredentials where
  subscription_key : Option SecretStr
  hub_api_token : Option SecretStr
deriving DecidableEq, Repr

/-- The operand of `PlanetaryComputerCredentials.__eq__`: either another
credentials record or any other Python object (represented by a tag). -/
inductive PyOperand where
  | creds (c : PlanetaryComputerCredentials) : PyOperand
  | nonCreds (tag : String) : PyOperand
deriving DecidableEq, Repr

/-- `PlanetaryComputerCredentials.__eq__`.  The `isinstance` test rejects
non-record operands; then the Python `and` first compares the
`subscription_key` attributes with `==` (plaintext comparison through
`SecretField.__eq__`) and, only when that is true, dereferences
`get_secret_value()` on both `hub_api_token` attributes — an
`AttributeError` when either is `None`.  The first component of the result
is the record after the call. -/
def pcEq (self : PlanetaryComputerCredentials) (other : PyOperand) :
    PlanetaryComputerCredentials × Except PyError Bool :=
  (self,
    match other with
    | PyOperand.nonCreds _ => Except.ok false
    | PyOperand.creds o =>
        if optSecretEq self.subscription_key o.subscription_key then
          match getSecretValueAttr self.hub_api_token with
          | Except.error e => Except.error e
          | Except.ok a =>
              match getSecretValueAttr o.hub_api_token with
              | Except.error e => Except.error e
              | Except.ok b => Except.ok (a == b)
        else Except.ok false)

/-- Trace events of `get_stac_catalog`: the global
`planetary_computer.set_subscription_key` mutation and the
`pystac_client.Client.open` call (with whether a signing modifier is
passed). -/
inductive CatalogEvent where
  | setKey (k : String) : CatalogEvent
  | openClient (url : String) (withModifier : Bool) : CatalogEvent
deriving DecidableEq, Repr

/-- The pystac client returned by `get_stac_catalog`: the URL it was opened
against and whether the `planetary_computer.sign_inplace` modifier was
passed. -/
structure CatalogClient where
  url : String
  signInplaceModifier : Bool
deriving DecidableEq, Repr

/-- Result of a `get_stac_catalog` call: the record after the call, the
process-wide signing-key global after the call, the ordered event trace and
the returned client. -/
structure CatalogCallResult where
  selfAfter : PlanetaryComputerCredentials
  signingKey : Option String
  events : List CatalogEvent
  client : CatalogClient
deriving DecidableEq, Repr

/-- `PlanetaryComputerCredentials.get_stac_catalog`.  When
`self.subscription_key` is truthy (present and non-empty, since `SecretStr`
truthiness goes through `__len__`), the plaintext key is installed into the
process-wide signing-key global before the client is opened; otherwise the
global is left unchanged.  The client is always opened against
`CATALOG_URL`, with the `sign_inplace` modifier iff `sign_inplace` is
true. -/
def get_stac_catalog (self : PlanetaryComputerCredentials)
    (sign_inplace : Bool) (signingKey0 : Option String) : CatalogCallResult :=
  match self.subscription_key with
  | some k =>
      if k.val = "" then
        { selfAfter := self, signingKey := signingKey0,
          events := [CatalogEvent.openClient CATALOG_URL sign_inplace],
          client := { url := CATALOG_URL, signInplaceModifier := sign_inplace } }
      else
        { selfAfter := self, signingKey := some k.val,
          events := [CatalogEvent.setKey k.val,
                     CatalogEvent.openClient CATALOG_URL sign_inplace],
          client := { url := CATALOG_URL, signInplaceModifier := sign_inplace } }
  | none =>
      { selfAfter := self, signingKey := signingKey0,
        events := [CatalogEvent.openClient CATALOG_URL sign_inplace],
        client := { url := CATALOG_URL, signInplaceModifier := sign_inplace } }

/-- A `dask_gateway.Gateway` client as configured by this code: the two
addresses, the `JupyterHubAuth` api token, and the extra kwargs. -/
structure GatewayClient where
  address : String
  proxy_address : String
  auth_api_token : String
  kwargs : PyDict
deriving DecidableEq, Repr

/-- The call `dask_gateway.Gateway(address=GATEWAY_ADDRESS,
proxy_address=GATEWAY_PROXY_ADDRESS, auth=JupyterHubAuth(api_token=tok),
**kwargs)`: Python raises a duplicate-keyword `TypeError` when `kwargs`
also binds one of the fixed keywords. -/
def mkDaskGateway (api_token : String) (kwargs : PyDict) :
    Except PyError GatewayClient :=
  if (dictGet kwargs "address").isSome then
    Except.error (PyError.typeError (dupKwargMsg "address"))
  else if (dictGet kwargs "proxy_address").isSome then
    Except.error (PyError.typeError (dupKwargMsg "proxy_address"))
  else if (dictGet kwargs "auth").isSome then
    Except.error (PyError.typeError (dupKwargMsg "auth"))
  else
    Except.ok { address := GATEWAY_ADDRESS,
                proxy_address := GATEWAY_PROXY_ADDRESS,
                auth_api_token := api_token, kwargs := kwargs }

/-- `PlanetaryComputerCredentials.get_gateway`: the explicit `None` check on
`hub_api_token` raises the distinguished `ValueError` before anything else;
then the gateway client is constructed with the fixed addresses. -/
def get_gateway (self : PlanetaryComputerCredentials)
    (gateway_kwargs : PyDict) :
    PlanetaryComputerCredentials × Except PyError GatewayClient :=
  (self,
    match self.hub_api_token with
    | none => Except.error (PyError.valueError missingTokenMsg)
    | some tok => mkDaskGateway tok.val gateway_kwargs)

/-- `PlanetaryComputerCredentials._get_cluster_options_dict`: each of the
five named parameters is added to the options dictionary iff its value is
not `None`.  Call sites model an omitted Python argument by its default:
`none` for `worker_cores`, `worker_memory`, `image` and `environment`, and
`some (PyVal.pyBool false)` for `gpu` (whose Python default is `False`). -/
def getClusterOptionsDict
    (worker_cores worker_memory image gpu environment : Option PyVal) :
    PyDict :=
  let d : PyDict := []
  let d := match worker_cores with
    | some v => dictSet d "worker_cores" v
    | none => d
  let d := match worker_memory with
    | some v => dictSet d "worker_memory" v
    | none => d
  let d := match image with
    | some v => dictSet d "image" v
    | none => d
  let d := match gpu with
    | some v => dictSet d "gpu" v
    | none => d
  let d := match environment with
    | some v => dictSet d "environment" v
    | none => d
  d

/-- A `dask_gateway.GatewayCluster` handle as configured by this code. -/
structure GatewayClusterHandle where
  address : String
  proxy_address : String
  auth_api_token : String
  options : PyDict
deriving DecidableEq, Repr

/-- The call `dask_gateway.GatewayCluster(address=..., proxy_address=...,
auth=..., **kwargs)`, with the duplicate-keyword `TypeError`. -/
def mkGatewayClusterHandle (api_token : String) (kwargs : PyDict) :
    Except PyError GatewayClusterHandle :=
  if (dictGet kwargs "address").isSome then
    Except.error (PyError.typeError (dupKwargMsg "address"))
  else if (dictGet kwargs "proxy_address").isSome then
    Except.error (PyError.typeError (dupKwargMsg "proxy_address"))
  else if (dictGet kwargs "auth").isSome then
    Except.error (PyError.typeError (dupKwargMsg "auth"))
  else
    Except.ok { address := GATEWAY_ADDRESS,
                proxy_address := GATEWAY_PROXY_ADDRESS,
                auth_api_token := api_token, options := kwargs }

/-- `PlanetaryComputerCredentials.new_gateway_cluster`: the caller kwargs are
first updated with the options dictionary; then the `GatewayCluster`
constructor call evaluates `self.hub_api_token.get_secret_value()` (an
`AttributeError` when the token is `None` — there is no explicit check in
this method) before the keyword dictionaries are merged. -/
def new_gateway_cluster (self : PlanetaryComputerCredentials)
    (worker_cores worker_memory image gpu environment : Option PyVal)
    (gateway_cluster_kwargs : PyDict) :
    PlanetaryComputerCredentials × Except PyError GatewayClusterHandle :=
  let kwargs := dictUpdate gateway_cluster_kwargs
    (getClusterOptionsDict worker_cores worker_memory image gpu environment)
  (self,
    match getSecretValueAttr self.hub_api_token with
    | Except.error e => Except.error e
    | Except.ok tok => mkGatewayClusterHandle tok kwargs)

/-- A `prefect_dask.DaskTaskRunner` as configured by
`get_dask_task_runner`. -/
structure DaskTaskRunner where
  cluster_class : String
  cluster_kwargs : PyDict
  adapt_kwargs : Option PyDict
  client_kwargs : Option PyDict
deriving DecidableEq, Repr

/-- `PlanetaryComputerCredentials.get_dask_task_runner`.  The caller-supplied
`cluster_kwargs` dictionary (when supplied) is updated **in place**: first
with the fixed `address`, `proxy_address` and `auth` entries (the `auth`
expression dereferences `self.hub_api_token.get_secret_value()` first, an
`AttributeError` when the token is `None`), then with the cluster options
dictionary.  The second component of the payload is the value the caller
observes in their own dictionary after the call (mirroring the in-place
`dict.update`): it is the very dictionary stored in the runner. -/
def get_dask_task_runner (self : PlanetaryComputerCredentials)
    (worker_cores worker_memory image gpu environment : Option PyVal)
    (cluster_kwargs adapt_kwargs client_kwargs : Option PyDict) :
    PlanetaryComputerCredentials ×
      Except PyError (DaskTaskRunner × Option PyDict) :=
  let ck0 := cluster_kwargs.getD []
  (self,
    match getSecretValueAttr self.hub_api_token with
    | Except.error e => Except.error e
    | Except.ok tok =>
        let ck1 := dictUpdate ck0
          [("address", PyVal.pyStr GATEWAY_ADDRESS),
           ("proxy_address", PyVal.pyStr GATEWAY_PROXY_ADDRESS),
           ("auth", PyVal.pyAuth tok)]
        let ck2 := dictUpdate ck1
          (getClusterOptionsDict worker_cores worker_memory image gpu environment)
        Except.ok
          ({ cluster_class := "dask_gateway.GatewayCluster",
             cluster_kwargs := ck2, adapt_kwargs := adapt_kwargs,
             client_kwargs := client_kwargs },
           cluster_kwargs.map (fun _ => ck2)))

/-- A `PlanetaryComputerTaskRunner` as configured by its `__init__`. -/
structure PCTaskRunner where
  credentials : PlanetaryComputerCredentials
  hub_api_token : String
  cluster_class : String
  cluster_kwargs : PyDict
  adapt_kwargs : Option PyDict
  client_kwargs : Option PyDict
deriving DecidableEq, Repr

/-- `PlanetaryComputerTaskRunner.__init__`.  The first statement evaluates
`credentials.hub_api_token.get_secret_value()` (an `AttributeError` when the
token is `None`) and stores the resulting Python `str` in
`self.hub_api_token`; the following `is None` check therefore inspects that
string — viewed as a dynamic optional value it is always `some tok` — so the
`ValueError` branch cannot fire.  The caller-supplied `cluster_kwargs`
dictionary (when supplied) is then updated in place with the fixed
`address`, `proxy_address` and `auth` entries; the second payload component
is the caller-observed dictionary after the call, as in
`get_dask_task_runner`. -/
def planetaryComputerTaskRunnerInit (credentials : PlanetaryComputerCredentials)
    (cluster_kwargs adapt_kwargs client_kwargs : Option PyDict) :
    PlanetaryComputerCredentials ×
      Except PyError (PCTaskRunner × Option PyDict) :=
  (credentials,
    match getSecretValueAttr credentials.hub_api_token with
    | Except.error e => Except.error e
    | Except.ok tok =>
        let stored : Option String := some tok
        if stored = none then
          Except.error (PyError.valueError missingTokenMsg)
        else
          let ck0 := cluster_kwargs.getD []
          let ck1 := dictUpdate ck0
            [("address", PyVal.pyStr GATEWAY_ADDRESS),
             ("proxy_address", PyVal.pyStr GATEWAY_PROXY_ADDRESS),
             ("auth", PyVal.pyAuth tok)]
          Except.ok
            ({ credentials := credentials, hub_api_token := tok,
               cluster_class := "dask_gateway.GatewayCluster",
               cluster_kwargs := ck1, adapt_kwargs := adapt_kwargs,
               client_kwargs := client_kwargs },
             cluster_kwargs.map (fun _ => ck1)))

/-- `PlanetaryComputerGateway.__init__` (`gateway.py`): explicit `None`
check on the token, then truthiness checks on `kwargs.get("address", None)`
and `kwargs.get("proxy_address", None)` raising the distinguished
`ValueError`s, then the `super().__init__` call with the fixed addresses
(which raises a duplicate-keyword `TypeError` when a falsy binding of one
of the fixed keywords survived the truthiness checks). -/
def planetaryComputerGatewayInit (hub_api_token : Option String)
    (gateway_kwargs : PyDict) : Except PyError GatewayClient :=
  match hub_api_token with
  | none => Except.error (PyError.valueError gatewayMissingTokenMsg)
  | some tok =>
      if kwargTruthy gateway_kwargs "address" then
        Except.error (PyError.valueError addressOverrideMsg)
      else if kwargTruthy gateway_kwargs "proxy_address" then
        Except.error (PyError.valueError proxyOverrideMsg)
      else mkDaskGateway tok gateway_kwargs

/-! ### Helper lemmas about the dictionary model -/

/-- Reading a key just set yields the value set. -/
theorem dictGet_dictSet_same (d : PyDict) (k : String) (v : PyVal) :
    dictGet (dictSet d k v) k = some v := by
  induction d with
  | nil => simp [dictSet, dictGet]
  | cons kv rest ih =>
      obtain ⟨k0, w⟩ := kv
      by_cases h : k0 = k
      · simp [dictSet, dictGet, h]
      · simp [dictSet, dictGet, h, ih]

/-- Setting one key does not change the reading of another. -/
theorem dictGet_dictSet_other (d : PyDict) (k k2 : String) (v : PyVal)
    (h : k ≠ k2) : dictGet (dictSet d k v) k2 = dictGet d k2 := by
  induction d with
  | nil => simp [dictSet, dictGet, h]
  | cons kv rest ih =>
      obtain ⟨k0, w⟩ := kv
      by_cases h0 : k0 = k
      · subst h0
        simp [dictSet, dictGet, h]
      · simp [dictSet, dictGet, h0, ih]

/-- Setting a fresh key appends it, as a Python dict does. -/
theorem dictSet_of_get_none (d : PyDict) (k : String) (v : PyVal)
    (h : dictGet d k = none) : dictSet d k v = d ++ [(k, v)] := by
  induction d with
  | nil => simp [dictSet]
  | cons kv rest ih =>
      obtain ⟨k0, w⟩ := kv
      by_cases h0 : k0 = k
      · simp [dictGet, h0] at h
      · simp [dictGet, h0] at h
        simp [dictSet, h0, ih h]

/-- Reading across an append when the key misses the first list. -/
theorem dictGet_append_of_none (d1 d2 : PyDict) (k : String)
    (h : dictGet d1 k = none) : dictGet (d1 ++ d2) k = dictGet d2 k := by
  induction d1 with
  | nil => simp
  | cons kv rest ih =>
      obtain ⟨k0, w⟩ := kv
      by_cases h0 : k0 = k
      · simp [dictGet, h0] at h
      · simp [dictGet, h0] at h
        simp [dictGet, h0, ih h]

/-- An update whose dictionary misses a key does not change that key. -/
theorem dictGet_dictUpdate_of_none (d u : PyDict) (k : String)
    (h : dictGet u k = none) :
    dictGet (dictUpdate d u) k = dictGet d k := by
  induction u generalizing d with
  | nil => simp [dictUpdate]
  | cons kv rest ih =>
      obtain ⟨k0, w⟩ := kv
      by_cases h0 : k0 = k
      · simp [dictGet, h0] at h
      · simp [dictGet, h0] at h
        have : dictUpdate d ((k0, w) :: rest) = dictUpdate (dictSet d k0 w) rest := by
          simp [dictUpdate, List.foldl]
        rw [this, ih (dictSet d k0 w) h, dictGet_dictSet_other _ _ _ _ h0]

/-! ### Helper lemmas about the cluster options dictionary -/

/-- The options dictionary binds `worker_cores` to exactly the supplied
optional value. -/
theorem optionsDict_get_worker_cores
    (wc wm im g env : Option PyVal) :
    dictGet (getClusterOptionsDict wc wm im g env) "worker_cores" = wc := by
  cases wc <;> cases wm <;> cases im <;> cases g <;> cases env <;>
    simp [getClusterOptionsDict, dictSet, dictGet]

/-- The options dictionary binds `worker_memory` to exactly the supplied
optional value. -/
theorem optionsDict_get_worker_memory
    (wc wm im g env : Option PyVal) :
    dictGet (getClusterOptionsDict wc wm im g env) "worker_memory" = wm := by
  cases wc <;> cases wm <;> cases im <;> cases g <;> cases env <;>
    simp [getClusterOptionsDict, dictSet, dictGet]

/-- The options dictionary binds `image` to exactly the supplied optional
value. -/
theorem optionsDict_get_image
    (wc wm im g env : Option PyVal) :
    dictGet (getClusterOptionsDict wc wm im g env) "image" = im := by
  cases wc <;> cases wm <;> cases im <;> cases g <;> cases env <;>
    simp [getClusterOptionsDict, dictSet, dictGet]

/-- The options dictionary binds `gpu` to exactly the supplied optional
value. -/
theorem optionsDict_get_gpu
    (wc wm im g env : Option PyVal) :
    dictGet (getClusterOptionsDict wc wm im g env) "gpu" = g := by
  cases wc <;> cases wm <;> cases im <;> cases g <;> cases env <;>
    simp [getClusterOptionsDict, dictSet, dictGet]

/-- The options dictionary binds `environment` to exactly the supplied
optional value. -/
theorem optionsDict_get_environment
    (wc wm im g env : Option PyVal) :
    dictGet (getClusterOptionsDict wc wm im g env) "environment" = env := by
  cases wc <;> cases wm <;> cases im <;> cases g <;> cases env <;>
    simp [getClusterOptionsDict, dictSet, dictGet]

/-- The options dictionary binds no key other than the five option names. -/
theorem optionsDict_get_other (wc wm im g env : Option PyVal) (k : String)
    (h1 : k ≠ "worker_cores") (h2 : k ≠ "worker_memory") (h3 : k ≠ "image")
    (h4 : k ≠ "gpu") (h5 : k ≠ "environment") :
    dictGet (getClusterOptionsDict wc wm im g env) k = none := by
  cases wc <;> cases wm <;> cases im <;> cases g <;> cases env <;>
    simp [getClusterOptionsDict, dictSet, dictGet,
      Ne.symm h1, Ne.symm h2, Ne.symm h3, Ne.symm h4, Ne.symm h5]

/-! ### Claims -/

/-- Claim C6: for every combination of the five named cluster parameters,
`_get_cluster_options_dict` returns a mapping that binds a parameter name
iff the supplied value is non-absent (not `None`), binds each included name
to exactly the supplied value — in particular `gpu = None` is omitted and a
supplied boolean `gpu` value is included as-is — and binds nothing else. -/
theorem cluster_options_translation (wc wm im g env : Option PyVal) :
    dictGet (getClusterOptionsDict wc wm im g env) "worker_cores" = wc ∧
    dictGet (getClusterOptionsDict wc wm im g env) "worker_memory" = wm ∧
    dictGet (getClusterOptionsDict wc wm im g env) "image" = im ∧
    dictGet (getClusterOptionsDict wc wm im g env) "gpu" = g ∧
    dictGet (getClusterOptionsDict wc wm im g env) "environment" = env ∧
    (∀ k : String, k ≠ "worker_cores" → k ≠ "worker_memory" → k ≠ "image" →
      k ≠ "gpu" → k ≠ "environment" →
      dictGet (getClusterOptionsDict wc wm im g env) k = none) :=
  ⟨optionsDict_get_worker_cores wc wm im g env,
   optionsDict_get_worker_memory wc wm im g env,
   optionsDict_get_image wc wm im g env,
   optionsDict_get_gpu wc wm im g env,
   optionsDict_get_environment wc wm im g env,
   fun k h1 h2 h3 h4 h5 => optionsDict_get_other wc wm im g env k h1 h2 h3 h4 h5⟩

/-- Witness for C6 at concrete inputs: a supplied boolean `gpu` is included
as-is, `gpu = None` is omitted, and an unrelated key is never bound. -/
theorem cluster_options_translation_witness :
    dictGet (getClusterOptionsDict (some (PyVal.pyNum 2)) none none
      (some (PyVal.pyBool true)) none) "gpu" = some (PyVal.pyBool true) ∧
    dictGet (getClusterOptionsDict (some (PyVal.pyNum 2)) none none
      none none) "gpu" = none ∧
    dictGet (getClusterOptionsDict (some (PyVal.pyNum 2)) none none
      (some (PyVal.pyBool true)) none) "extra_key" = none :=
  ⟨(cluster_options_translation (some (PyVal.pyNum 2)) none none
      (some (PyVal.pyBool true)) none).2.2.2.1,
   (cluster_options_translation (some (PyVal.pyNum 2)) none none
      none none).2.2.2.1,
   (cluster_options_translation (some (PyVal.pyNum 2)) none none
      (some (PyVal.pyBool true)) none).2.2.2.2.2 "extra_key"
      (by decide) (by decide) (by decide) (by decide) (by decide)⟩

/-- Counterexample to claim C1: calling `new_gateway_cluster` supplying only
`worker_cores = 2` (all other named parameters at their Python defaults, in
particular the default `gpu = False`) with no extra kwargs yields the
options mapping `{worker_cores: 2, gpu: False}`, not exactly
`{worker_cores: 2}`: the falsy-but-not-`None` default `gpu = False` passes
the `is not None` guard and is added locally. -/
theorem new_gateway_cluster_worker_cores_only_injects_gpu :
    (new_gateway_cluster ⟨none, some ⟨"tok"⟩⟩ (some (PyVal.pyNum 2)) none none
        (some (PyVal.pyBool false)) none []).2.map GatewayClusterHandle.options
      = Except.ok [("worker_cores", PyVal.pyNum 2), ("gpu", PyVal.pyBool false)]
    ∧ (new_gateway_cluster ⟨none, some ⟨"tok"⟩⟩ (some (PyVal.pyNum 2)) none none
        (some (PyVal.pyBool false)) none []).2.map GatewayClusterHandle.options
      ≠ Except.ok [("worker_cores", PyVal.pyNum 2)] := by
  have hA : (new_gateway_cluster ⟨none, some ⟨"tok"⟩⟩ (some (PyVal.pyNum 2)) none
        none (some (PyVal.pyBool false)) none []).2.map GatewayClusterHandle.options
      = Except.ok [("worker_cores", PyVal.pyNum 2), ("gpu", PyVal.pyBool false)] := rfl
  refine ⟨hA, ?_⟩
  rw [hA]
  intro hcontra
  exact absurd (Except.ok.inj hcontra) (by decide)

/-- Claim C1 as amended: calling `new_gateway_cluster` supplying only
`worker_cores = 2` (the other named parameters at their Python defaults)
produces a cluster-options mapping containing exactly the caller-supplied
extra kwargs plus `{worker_cores: 2, gpu: False}` — the entry `gpu: False`
is injected locally by the default `gpu = False` — and the cluster handle
carries the fixed addresses and the plaintext token. -/
theorem new_gateway_cluster_worker_cores_only_options
    (sk : Option SecretStr) (tok : SecretStr) (extras : PyDict)
    (h1 : dictGet extras "worker_cores" = none)
    (h2 : dictGet extras "gpu" = none)
    (h3 : dictGet extras "address" = none)
    (h4 : dictGet extras "proxy_address" = none)
    (h5 : dictGet extras "auth" = none) :
    (new_gateway_cluster ⟨sk, some tok⟩ (some (PyVal.pyNum 2)) none none
        (some (PyVal.pyBool false)) none extras).2 =
      Except.ok ⟨GATEWAY_ADDRESS, GATEWAY_PROXY_ADDRESS, tok.val,
        extras ++ [("worker_cores", PyVal.pyNum 2),
                   ("gpu", PyVal.pyBool false)]⟩ := by
  have hset1 : dictSet extras "worker_cores" (PyVal.pyNum 2)
      = extras ++ [("worker_cores", PyVal.pyNum 2)] :=
    dictSet_of_get_none extras _ _ h1
  have hmid : dictGet (extras ++ [("worker_cores", PyVal.pyNum 2)]) "gpu" = none := by
    rw [dictGet_append_of_none extras _ _ h2]; rfl
  have hset2 : dictSet (extras ++ [("worker_cores", PyVal.pyNum 2)]) "gpu"
        (PyVal.pyBool false)
      = extras ++ [("worker_cores", PyVal.pyNum 2), ("gpu", PyVal.pyBool false)] := by
    rw [dictSet_of_get_none _ _ _ hmid, List.append_assoc]
    rfl
  have hupd : dictUpdate extras
        [("worker_cores", PyVal.pyNum 2), ("gpu", PyVal.pyBool false)]
      = extras ++ [("worker_cores", PyVal.pyNum 2), ("gpu", PyVal.pyBool false)] := by
    simp only [dictUpdate, List.foldl]
    rw [hset1, hset2]
  have ha : dictGet (extras ++ [("worker_cores", PyVal.pyNum 2),
        ("gpu", PyVal.pyBool false)]) "address" = none := by
    rw [dictGet_append_of_none extras _ _ h3]; rfl
  have hp : dictGet (extras ++ [("worker_cores", PyVal.pyNum 2),
        ("gpu", PyVal.pyBool false)]) "proxy_address" = none := by
    rw [dictGet_append_of_none extras _ _ h4]; rfl
  have hau : dictGet (extras ++ [("worker_cores", PyVal.pyNum 2),
        ("gpu", PyVal.pyBool false)]) "auth" = none := by
    rw [dictGet_append_of_none extras _ _ h5]; rfl
  have hred : (new_gateway_cluster ⟨sk, some tok⟩ (some (PyVal.pyNum 2)) none none
        (some (PyVal.pyBool false)) none extras).2
      = mkGatewayClusterHandle tok.val (dictUpdate extras
          [("worker_cores", PyVal.pyNum 2), ("gpu", PyVal.pyBool false)]) := rfl
  rw [hred, hupd]
  simp [mkGatewayClusterHandle, ha, hp, hau]

/-- Witness for the amended C1 at a concrete input with one caller-supplied
extra kwarg. -/
theorem new_gateway_cluster_worker_cores_only_options_witness :
    (new_gateway_cluster ⟨none, some ⟨"tok"⟩⟩ (some (PyVal.pyNum 2)) none none
        (some (PyVal.pyBool false)) none
        [("shutdown_on_close", PyVal.pyBool true)]).2 =
      Except.ok ⟨GATEWAY_ADDRESS, GATEWAY_PROXY_ADDRESS, "tok",
        [("shutdown_on_close", PyVal.pyBool true),
         ("worker_cores", PyVal.pyNum 2), ("gpu", PyVal.pyBool false)]⟩ :=
  new_gateway_cluster_worker_cores_only_options none ⟨"tok"⟩
    [("shutdown_on_close", PyVal.pyBool true)] rfl rfl rfl rfl rfl

/-- Counterexample to claim C2: comparing two identical records whose
`hub_api_token` is absent does not return true — the unguarded
`get_secret_value()` dereference raises an `AttributeError`. -/
theorem pcEq_absent_tokens_raise :
    (pcEq ⟨none, none⟩ (PyOperand.creds ⟨none, none⟩)).2 =
      Except.error (PyError.attributeError noneGetSecretValueMsg) ∧
    (pcEq ⟨none, none⟩ (PyOperand.creds ⟨none, none⟩)).2 ≠ Except.ok true := by
  refine ⟨rfl, ?_⟩
  intro h
  rw [show (pcEq ⟨none, none⟩ (PyOperand.creds ⟨none, none⟩)).2 =
      Except.error (PyError.attributeError noneGetSecretValueMsg) from rfl] at h
  exact Except.noConfusion h

/-- Claim C2 as amended: `__eq__` returns false for any non-record operand;
it returns false when the `subscription_key` attributes differ by plaintext
(the Python `and` short-circuits); when the subscription keys agree and both
`hub_api_token` values are present it returns true iff both pairs of secret
fields agree by plaintext; but when the subscription keys agree and either
`hub_api_token` is absent it raises an `AttributeError` instead of returning
a boolean. -/
theorem pcEq_plaintext_characterization
    (self o : PlanetaryComputerCredentials) :
    (∀ t, (pcEq self (PyOperand.nonCreds t)).2 = Except.ok false) ∧
    (optSecretEq self.subscription_key o.subscription_key = false →
      (pcEq self (PyOperand.creds o)).2 = Except.ok false) ∧
    (∀ a b : SecretStr, self.hub_api_token = some a → o.hub_api_token = some b →
      ((pcEq self (PyOperand.creds o)).2 = Except.ok true ↔
        optSecretEq self.subscription_key o.subscription_key = true ∧
          a.val = b.val)) ∧
    (optSecretEq self.subscription_key o.subscription_key = true →
      self.hub_api_token = none ∨ o.hub_api_token = none →
      (pcEq self (PyOperand.creds o)).2 =
        Except.error (PyError.attributeError noneGetSecretValueMsg)) := by
  refine ⟨fun t => rfl, ?_, ?_, ?_⟩
  · intro h
    simp [pcEq, h]
  · intro a b ha hb
    by_cases hs : optSecretEq self.subscription_key o.subscription_key = true
    · simp [pcEq, ha, hb, getSecretValueAttr, hs]
    · simp [pcEq, ha, hb, getSecretValueAttr, hs]
  · intro hs hor
    cases hself : self.hub_api_token with
    | none => simp [pcEq, hs, hself, getSecretValueAttr]
    | some a =>
        cases hother : o.hub_api_token with
        | none => simp [pcEq, hs, hself, hother, getSecretValueAttr]
        | some b =>
            exfalso
            rcases hor with h | h
            · rw [hself] at h; exact Option.noConfusion h
            · rw [hother] at h; exact Option.noConfusion h

/-- Witness for the amended C2 at concrete records with both fields
present and equal by plaintext: equality returns true. -/
theorem pcEq_plaintext_characterization_witness :
    (pcEq ⟨some ⟨"key"⟩, some ⟨"tok"⟩⟩
        (PyOperand.creds ⟨some ⟨"key"⟩, some ⟨"tok"⟩⟩)).2 = Except.ok true :=
  ((pcEq_plaintext_characterization ⟨some ⟨"key"⟩, some ⟨"tok"⟩⟩
      ⟨some ⟨"key"⟩, some ⟨"tok"⟩⟩).2.2.1 ⟨"tok"⟩ ⟨"tok"⟩ rfl rfl).mpr
    ⟨by decide, rfl⟩

/-- Claim C3, evaluated at the failing input: on a record whose
`hub_api_token` is absent, only `get_gateway` raises the distinguished
missing-credential `ValueError`; `new_gateway_cluster`,
`get_dask_task_runner` and `PlanetaryComputerTaskRunner.__init__` instead
raise an `AttributeError` from the unguarded `None.get_secret_value()`
dereference (still synchronously, before any client construction). -/
theorem missing_token_operations_behaviour :
    (get_gateway ⟨none, none⟩ []).2 =
      Except.error (PyError.valueError missingTokenMsg) ∧
    (new_gateway_cluster ⟨none, none⟩ none none none (some (PyVal.pyBool false))
        none []).2 =
      Except.error (PyError.attributeError noneGetSecretValueMsg) ∧
    (get_dask_task_runner ⟨none, none⟩ none none none (some (PyVal.pyBool false))
        none none none none).2 =
      Except.error (PyError.attributeError noneGetSecretValueMsg) ∧
    (planetaryComputerTaskRunnerInit ⟨none, none⟩ none none none).2 =
      Except.error (PyError.attributeError noneGetSecretValueMsg) :=
  ⟨rfl, rfl, rfl, rfl⟩

/-- Claim C9: `PlanetaryComputerTaskRunner.__init__` dereferences
`credentials.hub_api_token.get_secret_value()` before its `None` check, so
with an absent token the constructor fails with an `AttributeError`, and
the missing-token `ValueError` branch is unreachable for every input. -/
theorem taskRunnerInit_attribute_error_and_dead_branch
    (credentials : PlanetaryComputerCredentials)
    (ck ak clk : Option PyDict) :
    (credentials.hub_api_token = none →
      (planetaryComputerTaskRunnerInit credentials ck ak clk).2 =
        Except.error (PyError.attributeError noneGetSecretValueMsg)) ∧
    ∀ e, (planetaryComputerTaskRunnerInit credentials ck ak clk).2 ≠
      Except.error (PyError.valueError e) := by
  obtain ⟨sk, tok⟩ := credentials
  constructor
  · intro h
    cases tok with
    | none => rfl
    | some t => exact absurd h (by simp)
  · intro e hcontra
    cases tok with
    | none => simp [planetaryComputerTaskRunnerInit, getSecretValueAttr] at hcontra
    | some t => simp [planetaryComputerTaskRunnerInit, getSecretValueAttr] at hcontra

/-- Witness for C9 at a concrete record with an absent token. -/
theorem taskRunnerInit_attribute_error_witness :
    (planetaryComputerTaskRunnerInit ⟨none, none⟩ none none none).2 =
      Except.error (PyError.attributeError noneGetSecretValueMsg) :=
  (taskRunnerInit_attribute_error_and_dead_branch ⟨none, none⟩
    none none none).1 rfl

/-- Counterexample to claim C4: a record whose `subscription_key` is present
but empty is not installed — `if self.subscription_key:` goes through
`SecretStr.__len__`, so the empty secret is falsy, the signing-key global is
left unchanged and no installation event occurs. -/
theorem get_stac_catalog_empty_key_not_installed :
    (get_stac_catalog ⟨some ⟨""⟩, none⟩ true none).signingKey = none ∧
    (get_stac_catalog ⟨some ⟨""⟩, none⟩ true none).events =
      [CatalogEvent.openClient CATALOG_URL true] :=
  ⟨rfl, rfl⟩

/-- Claim C4 as amended: when `subscription_key` is present **and
non-empty**, `get_stac_catalog` installs its plaintext as the process-wide
signing key and the installation event strictly precedes the client-opening
event; when the key is absent — or present but empty, because `SecretStr`
truthiness goes through `__len__` — the global signing-key state is left
unchanged. -/
theorem get_stac_catalog_signing_key_installation
    (self : PlanetaryComputerCredentials) (b : Bool) (sk0 : Option String) :
    (∀ k : SecretStr, self.subscription_key = some k → k.val ≠ "" →
      (get_stac_catalog self b sk0).signingKey = some k.val ∧
      (get_stac_catalog self b sk0).events =
        [CatalogEvent.setKey k.val, CatalogEvent.openClient CATALOG_URL b]) ∧
    (self.subscription_key = none →
      (get_stac_catalog self b sk0).signingKey = sk0 ∧
      (get_stac_catalog self b sk0).events =
        [CatalogEvent.openClient CATALOG_URL b]) ∧
    (∀ k : SecretStr, self.subscription_key = some k → k.val = "" →
      (get_stac_catalog self b sk0).signingKey = sk0) := by
  refine ⟨?_, ?_, ?_⟩
  · intro k hk hne
    constructor <;> simp [get_stac_catalog, hk, hne]
  · intro h
    constructor <;> simp [get_stac_catalog, h]
  · intro k hk he
    simp [get_stac_catalog, hk, he]

/-- Witness for the amended C4 at a concrete record with a non-empty key:
the key is installed and the installation precedes the open. -/
theorem get_stac_catalog_signing_key_installation_witness :
    (get_stac_catalog ⟨some ⟨"sub"⟩, none⟩ true none).signingKey = some "sub" ∧
    (get_stac_catalog ⟨some ⟨"sub"⟩, none⟩ true none).events =
      [CatalogEvent.setKey "sub", CatalogEvent.openClient CATALOG_URL true] :=
  (get_stac_catalog_signing_key_installation ⟨some ⟨"sub"⟩, none⟩ true none).1
    ⟨"sub"⟩ rfl (by decide)

/-- Counterexample to claim C5: on the record with `hub_api_token = "tok"`
and `subscription_key` absent, `open_catalog()` at its Python default
`sign_inplace = True` **does** pass the `sign_inplace` signing callback,
contrary to the claim that no signing callback is passed. -/
theorem get_stac_catalog_default_passes_modifier :
    (get_stac_catalog ⟨none, some ⟨"tok"⟩⟩ true none).client.signInplaceModifier
      = true :=
  rfl

/-- Claim C5 as amended: for the record with `hub_api_token = "tok"` and
`subscription_key` absent, `open_catalog()` succeeds with no local error,
returns a client opened against the fixed catalog URL — with the
`sign_inplace` signing callback passed at the default `sign_inplace = True`
(no callback is passed only when `sign_inplace` is false) — and leaves the
signing-key global unchanged; `open_gateway()` succeeds and returns a
client whose address and proxy address equal the fixed constants. -/
theorem catalog_and_gateway_with_token_only :
    (get_stac_catalog ⟨none, some ⟨"tok"⟩⟩ true none).client =
      { url := CATALOG_URL, signInplaceModifier := true } ∧
    (get_stac_catalog ⟨none, some ⟨"tok"⟩⟩ true none).signingKey = none ∧
    (get_stac_catalog ⟨none, some ⟨"tok"⟩⟩ false none).client =
      { url := CATALOG_URL, signInplaceModifier := false } ∧
    (get_gateway ⟨none, some ⟨"tok"⟩⟩ []).2 =
      Except.ok { address := GATEWAY_ADDRESS,
                  proxy_address := GATEWAY_PROXY_ADDRESS,
                  auth_api_token := "tok", kwargs := [] } :=
  ⟨rfl, rfl, rfl, rfl⟩

/-- Claim C8: no operation mutates the credentials record — for every
record, operand, flag, signing-key state and argument dictionaries, the
record after each of the five operations (`__eq__`, `get_stac_catalog`,
`get_gateway`, `new_gateway_cluster`, `get_dask_task_runner`) equals the
record before, whether the operation returns normally or raises. -/
theorem operations_do_not_mutate_record
    (self : PlanetaryComputerCredentials) (other : PyOperand) (b : Bool)
    (sk0 : Option String) (gateway_kwargs extras : PyDict)
    (wc wm im g env : Option PyVal) (ck ak clk : Option PyDict) :
    (pcEq self other).1 = self ∧
    (get_stac_catalog self b sk0).selfAfter = self ∧
    (get_gateway self gateway_kwargs).1 = self ∧
    (new_gateway_cluster self wc wm im g env extras).1 = self ∧
    (get_dask_task_runner self wc wm im g env ck ak clk).1 = self := by
  refine ⟨rfl, ?_, rfl, rfl, rfl⟩
  cases hsk : self.subscription_key with
  | none => simp [get_stac_catalog, hsk]
  | some k => by_cases h : k.val = "" <;> simp [get_stac_catalog, hsk, h]

/-- The cluster options dictionary never binds the fixed gateway keywords. -/
theorem optionsDict_no_fixed_keys (wc wm im g env : Option PyVal) :
    dictGet (getClusterOptionsDict wc wm im g env) "address" = none ∧
    dictGet (getClusterOptionsDict wc wm im g env) "proxy_address" = none ∧
    dictGet (getClusterOptionsDict wc wm im g env) "auth" = none :=
  ⟨optionsDict_get_other wc wm im g env "address"
     (by decide) (by decide) (by decide) (by decide) (by decide),
   optionsDict_get_other wc wm im g env "proxy_address"
     (by decide) (by decide) (by decide) (by decide) (by decide),
   optionsDict_get_other wc wm im g env "auth"
     (by decide) (by decide) (by decide) (by decide) (by decide)⟩

/-- After updating any dictionary with the fixed
`address`/`proxy_address`/`auth` triple, those three keys hold exactly the
fixed values. -/
theorem dictGet_fixed_triple (d : PyDict) (tok : String) :
    dictGet (dictUpdate d
      [("address", PyVal.pyStr GATEWAY_ADDRESS),
       ("proxy_address", PyVal.pyStr GATEWAY_PROXY_ADDRESS),
       ("auth", PyVal.pyAuth tok)]) "address"
      = some (PyVal.pyStr GATEWAY_ADDRESS) ∧
    dictGet (dictUpdate d
      [("address", PyVal.pyStr GATEWAY_ADDRESS),
       ("proxy_address", PyVal.pyStr GATEWAY_PROXY_ADDRESS),
       ("auth", PyVal.pyAuth tok)]) "proxy_address"
      = some (PyVal.pyStr GATEWAY_PROXY_ADDRESS) ∧
    dictGet (dictUpdate d
      [("address", PyVal.pyStr GATEWAY_ADDRESS),
       ("proxy_address", PyVal.pyStr GATEWAY_PROXY_ADDRESS),
       ("auth", PyVal.pyAuth tok)]) "auth"
      = some (PyVal.pyAuth tok) := by
  have hu : dictUpdate d
      [("address", PyVal.pyStr GATEWAY_ADDRESS),
       ("proxy_address", PyVal.pyStr GATEWAY_PROXY_ADDRESS),
       ("auth", PyVal.pyAuth tok)]
      = dictSet (dictSet (dictSet d "address" (PyVal.pyStr GATEWAY_ADDRESS))
          "proxy_address" (PyVal.pyStr GATEWAY_PROXY_ADDRESS))
          "auth" (PyVal.pyAuth tok) := rfl
  refine ⟨?_, ?_, ?_⟩
  · rw [hu, dictGet_dictSet_other _ _ _ _ (by decide),
      dictGet_dictSet_other _ _ _ _ (by decide), dictGet_dictSet_same]
  · rw [hu, dictGet_dictSet_other _ _ _ _ (by decide), dictGet_dictSet_same]
  · rw [hu, dictGet_dictSet_same]

/-- Counterexample to claim C7: a caller-supplied `address` passed through
`credentials.get_gateway` — or a falsy caller-supplied `address` passed to
`PlanetaryComputerGateway` — fails with a duplicate-keyword `TypeError`
from the underlying constructor call, not with the distinguished
configuration `ValueError`. -/
theorem gateway_address_override_not_distinguished :
    (get_gateway ⟨none, some ⟨"tok"⟩⟩ [("address", PyVal.pyStr "x")]).2 =
      Except.error (PyError.typeError (dupKwargMsg "address")) ∧
    planetaryComputerGatewayInit (some "tok") [("address", PyVal.pyStr "")] =
      Except.error (PyError.typeError (dupKwargMsg "address")) :=
  ⟨rfl, rfl⟩

/-- Claim C7 as amended: every attempt to pass a caller-supplied `address`
or `proxy_address` to `PlanetaryComputerGateway.__init__` or to
`credentials.get_gateway` fails without constructing a client, but the
distinguished configuration `ValueError` is raised only by
`PlanetaryComputerGateway.__init__` and only for a truthy override; a falsy
override there, and any override through `get_gateway`, fails instead with
a duplicate-keyword `TypeError` from the underlying constructor call. -/
theorem gateway_address_override_errors (tok : String) (kwargs : PyDict)
    (h : (dictGet kwargs "address").isSome ∨
      (dictGet kwargs "proxy_address").isSome) :
    (∃ e, planetaryComputerGatewayInit (some tok) kwargs = Except.error e) ∧
    (∃ e, (get_gateway ⟨none, some ⟨tok⟩⟩ kwargs).2 = Except.error e) ∧
    (∀ v, dictGet kwargs "address" = some v → pyTruthy v = true →
      planetaryComputerGatewayInit (some tok) kwargs =
        Except.error (PyError.valueError addressOverrideMsg)) ∧
    ((dictGet kwargs "address").isSome →
      (get_gateway ⟨none, some ⟨tok⟩⟩ kwargs).2 =
        Except.error (PyError.typeError (dupKwargMsg "address"))) := by
  refine ⟨?_, ?_, ?_, ?_⟩
  · by_cases hta : kwargTruthy kwargs "address"
    · exact ⟨PyError.valueError addressOverrideMsg,
        by simp [planetaryComputerGatewayInit, hta]⟩
    · by_cases htp : kwargTruthy kwargs "proxy_address"
      · exact ⟨PyError.valueError proxyOverrideMsg,
          by simp [planetaryComputerGatewayInit, hta, htp]⟩
      · by_cases ha : (dictGet kwargs "address").isSome
        · exact ⟨PyError.typeError (dupKwargMsg "address"),
            by simp [planetaryComputerGatewayInit, mkDaskGateway, hta, htp, ha]⟩
        · have hp : (dictGet kwargs "proxy_address").isSome := h.resolve_left ha
          exact ⟨PyError.typeError (dupKwargMsg "proxy_address"),
            by simp [planetaryComputerGatewayInit, mkDaskGateway, hta, htp,
              ha, hp]⟩
  · by_cases ha : (dictGet kwargs "address").isSome
    · exact ⟨PyError.typeError (dupKwargMsg "address"),
        by simp [get_gateway, mkDaskGateway, ha]⟩
    · have hp : (dictGet kwargs "proxy_address").isSome := h.resolve_left ha
      exact ⟨PyError.typeError (dupKwargMsg "proxy_address"),
        by simp [get_gateway, mkDaskGateway, ha, hp]⟩
  · intro v hv htv
    simp [planetaryComputerGatewayInit, kwargTruthy, hv, htv]
  · intro ha
    simp [get_gateway, mkDaskGateway, ha]

/-- Witness for the amended C7: with a truthy `address` override,
`PlanetaryComputerGateway` raises the distinguished `ValueError` while
`get_gateway` fails with the duplicate-keyword `TypeError`. -/
theorem gateway_address_override_errors_witness :
    planetaryComputerGatewayInit (some "tok") [("address", PyVal.pyStr "x")] =
      Except.error (PyError.valueError addressOverrideMsg) ∧
    (get_gateway ⟨none, some ⟨"tok"⟩⟩ [("address", PyVal.pyStr "x")]).2 =
      Except.error (PyError.typeError (dupKwargMsg "address")) := by
  have h := gateway_address_override_errors "tok"
    [("address", PyVal.pyStr "x")] (Or.inl (by decide))
  exact ⟨h.2.2.1 (PyVal.pyStr "x") rfl (by decide), h.2.2.2 (by decide)⟩

/-- Claim C10: for every caller-supplied `cluster_kwargs` mapping passed to
`get_dask_task_runner` or `PlanetaryComputerTaskRunner.__init__` (with the
token present), any caller-supplied `address`, `proxy_address` or `auth`
entries are silently overwritten with the fixed gateway constants and the
token-derived auth — no error is raised for the conflict — and the mapping
the caller observes after the call is the very dictionary stored in the
runner (the caller object is updated in place). -/
theorem caller_cluster_kwargs_overwritten
    (sk : Option SecretStr) (tok : SecretStr) (d : PyDict)
    (wc wm im g env : Option PyVal) (ak clk : Option PyDict) :
    (∃ r : DaskTaskRunner,
      (get_dask_task_runner ⟨sk, some tok⟩ wc wm im g env (some d) ak clk).2 =
        Except.ok (r, some r.cluster_kwargs) ∧
      dictGet r.cluster_kwargs "address" = some (PyVal.pyStr GATEWAY_ADDRESS) ∧
      dictGet r.cluster_kwargs "proxy_address"
        = some (PyVal.pyStr GATEWAY_PROXY_ADDRESS) ∧
      dictGet r.cluster_kwargs "auth" = some (PyVal.pyAuth tok.val)) ∧
    (∃ r : PCTaskRunner,
      (planetaryComputerTaskRunnerInit ⟨sk, some tok⟩ (some d) ak clk).2 =
        Except.ok (r, some r.cluster_kwargs) ∧
      dictGet r.cluster_kwargs "address" = some (PyVal.pyStr GATEWAY_ADDRESS) ∧
      dictGet r.cluster_kwargs "proxy_address"
        = some (PyVal.pyStr GATEWAY_PROXY_ADDRESS) ∧
      dictGet r.cluster_kwargs "auth" = some (PyVal.pyAuth tok.val)) := by
  have haddr : dictGet (dictUpdate (dictUpdate d
      [("address", PyVal.pyStr GATEWAY_ADDRESS),
       ("proxy_address", PyVal.pyStr GATEWAY_PROXY_ADDRESS),
       ("auth", PyVal.pyAuth tok.val)])
      (getClusterOptionsDict wc wm im g env)) "address"
      = some (PyVal.pyStr GATEWAY_ADDRESS) := by
    rw [dictGet_dictUpdate_of_none _ _ _ (optionsDict_no_fixed_keys wc wm im g env).1]
    exact (dictGet_fixed_triple d tok.val).1
  have hproxy : dictGet (dictUpdate (dictUpdate d
      [("address", PyVal.pyStr GATEWAY_ADDRESS),
       ("proxy_address", PyVal.pyStr GATEWAY_PROXY_ADDRESS),
       ("auth", PyVal.pyAuth tok.val)])
      (getClusterOptionsDict wc wm im g env)) "proxy_address"
      = some (PyVal.pyStr GATEWAY_PROXY_ADDRESS) := by
    rw [dictGet_dictUpdate_of_none _ _ _
      (optionsDict_no_fixed_keys wc wm im g env).2.1]
    exact (dictGet_fixed_triple d tok.val).2.1
  have hauth : dictGet (dictUpdate (dictUpdate d
      [("address", PyVal.pyStr GATEWAY_ADDRESS),
       ("proxy_address", PyVal.pyStr GATEWAY_PROXY_ADDRESS),
       ("auth", PyVal.pyAuth tok.val)])
      (getClusterOptionsDict wc wm im g env)) "auth"
      = some (PyVal.pyAuth tok.val) := by
    rw [dictGet_dictUpdate_of_none _ _ _
      (optionsDict_no_fixed_keys wc wm im g env).2.2]
    exact (dictGet_fixed_triple d tok.val).2.2
  constructor
  · exact ⟨_, rfl, haddr, hproxy, hauth⟩
  · exact ⟨_, rfl, (dictGet_fixed_triple d tok.val).1,
      (dictGet_fixed_triple d tok.val).2.1, (dictGet_fixed_triple d tok.val).2.2⟩
